/-
Verification of the streaming chat relay of this repository.

Embedded source files:
  * src/quartapp/chat.py — the Quart blueprint: `configure_openai` (startup
    configuration of the Azure OpenAI client) and `chat_handler`
    (`POST /chat/stream`), whose inner generator `response_stream` relays
    provider stream chunks to the HTTP response as newline-delimited JSON.
  * test.py — a separate, non-streaming `/chat` handler that upserts one
    Cosmos DB record per request.
  * setup.py — Cosmos client construction only; no behaviour the claims need.

Modelling conventions:
  * A provider stream is the finite list of chunk events the provider
    delivered in arrival order, together with `Option String`: `some m` when
    the underlying iteration raised an exception with message `m` after those
    events, `none` when the stream ended cleanly.
  * `event.model_dump()["choices"]` is modelled as a list of JSON values;
    JSON itself is a small inductive type.
  * Each `yield` of `response_stream` is one `Line`: a tagged value recording
    which of the two serialisation sites in the source produced it
    (chat.py line 147 for a choice, line 150 for the error object).
-/
import Mathlib

namespace ChatApp

/-- A chat message as carried in the JSON request body and in the
assembled prompt: a `role`/`content` pair (chat.py lines 76, 112, 133). -/
structure Message where
  role : String
  content : String
deriving DecidableEq, Repr

/-- The configured persona text: the `content` of the system message built in
`chat_handler` (chat.py lines 78–105), verbatim. -/
def persona_text : String :=
  "Eres Amigo, un coach motivador y cercano que combina la calidez latina con expertise en salud y bienestar. " ++
  "Tu personalidad es alegre, empática y motivadora - como ese amigo sabio de la familia que siempre tiene un buen consejo " ++
  "y una palabra de aliento. Características principales:\n\n" ++
  "PERSONALIDAD:\n" ++
  "- Usas un lenguaje cercano y coloquial, pero siempre profesional\n" ++
  "- Incorporas dichos y expresiones populares latinos cuando es apropiado\n" ++
  "- Tienes sentido del humor y mantienes un tono optimista\n" ++
  "- Eres comprensivo con los desafíos y celebras los pequeños logros\n\n" ++
  "EXPERTO:\n" ++
  "- Adaptas recetas tradicionales latinos para hacerlas más saludables sin perder sabor\n" ++
  "- Entiendes las dinámicas familiares y sociales de la cultura latina\n" ++
  "- Proporcionas alternativas saludables para ocasiones especiales y festividades\n" ++
  "- Sugieres ejercicios que se pueden hacer en casa o con recursos limitados\n\n" ++
  "ENFOQUE:\n" ++
  "- Promueves cambios graduales y sostenibles, no dietas restrictivas\n" ++
  "- Respetas las tradiciones culinarias mientras introduces mejoras saludables\n" ++
  "- Consideras el presupuesto y acceso a alimentos del usuario\n" ++
  "- Motivas desde el amor propio y la salud, no desde la vergüenza\n" ++
  "- Reconoces la importancia de la familia y la comunidad en el proceso\n\n" ++
  "Tu objetivo es ser más que un simple coach - eres un compañero de viaje que inspira, educa y " ++
  "acompaña a cada persona en su camino hacia una vida más saludable, siempre respetando su " ++
  "identidad cultural y circunstancias personales."

/-- The configured welcome greeting: the `content` of the welcome message
built in `chat_handler` when `new_session` holds (chat.py lines 114–128),
verbatim. -/
def welcome_text : String :=
  "¡Hola! 👋 ¡Qué gusto conocerte! Soy Amigo, tu compañero personal en este viaje hacia una vida más saludable. " ++
  "Como latino que soy, entiendo que la buena salud y la buena comida van de la mano con la alegría de vivir. " ++
  "No vengo a quitarte tus platos favoritos ni a imponerte rutinas imposibles - ¡vengo a ayudarte a encontrar " ++
  "ese balance perfecto entre lo delicioso y lo saludable! 💪✨\n\n" ++
  "Cuéntame, ¿qué te gustaría lograr? Ya sea que quieras:\n" ++
  "• Sentirte con más energía\n" ++
  "• Mejorar tu alimentación sin renunciar a los sabores de casa\n" ++
  "• Encontrar ejercicios que se ajusten a tu rutina\n" ++
  "• O simplemente dar el primer paso hacia una vida más saludable\n\n" ++
  "Estoy aquí para escucharte y crear un plan que funcione para TI, tu familia y tu estilo de vida. " ++
  "¡Juntos vamos a hacer que este proceso sea divertido y sostenible! ¿Por dónde te gustaría empezar?"

/-- `system_message` of `chat_handler` (chat.py lines 76–106). -/
def system_message : Message :=
  { role := "system", content := persona_text }

/-- `welcome_message` of `chat_handler` (chat.py lines 112–129). -/
def welcome_message : Message :=
  { role := "assistant", content := welcome_text }

/-- The prompt-assembly steps of `chat_handler` (chat.py lines 108–133):
start from `[system_message]`, append `welcome_message` when `new_session`
holds, then extend with the caller-supplied `request_messages`. -/
def chat_handler_all_messages (request_messages : List Message)
    (new_session : Bool) : List Message :=
  let all_messages := [system_message]
  let all_messages :=
    if new_session then all_messages ++ [welcome_message] else all_messages
  all_messages ++ request_messages

/-- A JSON value, as produced by `event.model_dump()` and consumed by
`json.dumps` in `response_stream` (chat.py lines 145–150). -/
inductive Json where
  | null : Json
  | bool (b : Bool) : Json
  | num (n : Int) : Json
  | str (s : String) : Json
  | arr (elems : List Json) : Json
  | obj (fields : List (String × Json)) : Json
deriving Repr

instance : Inhabited Json := ⟨Json.null⟩

/-- One provider stream chunk as seen by `response_stream` after
`event.model_dump()`: the handler only reads its `"choices"` field
(chat.py lines 145–147). -/
structure Event where
  choices : List Json
deriving Repr

/-- One line yielded by `response_stream`, tagged by which of its two yield
sites produced it: `content c` for `json.dumps(event_dict["choices"][0]) +
"\n"` (chat.py line 147), and `err m` for
`json.dumps({"error": str(e)}) + "\n"` (chat.py line 150). -/
inductive Line where
  | content (choice : Json) : Line
  | err (msg : String) : Line
deriving Repr

/-- The lines yielded by `response_stream` (chat.py lines 141–150) on a
provider stream that delivered `events` and then either ended cleanly
(`exc = none`) or raised an exception with message `m` (`exc = some m`): the
loop body yields the first choice of each event whose `choices` list is
non-empty (the `if event_dict["choices"]:` guard, line 146), in arrival
order; the `except` clause then yields the single error line. -/
def response_stream_lines (events : List Event) (exc : Option String) :
    List Line :=
  (events.filterMap fun e => (e.choices.head?).map Line.content)
  ++ (match exc with
      | some m => [Line.err m]
      | none => [])

/-- `true` on `Line.content`, `false` on `Line.err`: distinguishes the two
yield sites of `response_stream` (chat.py lines 147 and 150). -/
def Line.isContent : Line → Bool
  | Line.content _ => true
  | Line.err _ => false

/-- The assistant-content lines of a yielded line sequence: everything
produced by the loop-body yield (chat.py line 147), the error line excluded. -/
def content_lines (ls : List Line) : List Line :=
  ls.filter Line.isContent

/-- The observable effects of one `chat_handler` invocation
(chat.py lines 69–152):
  * `sent` — the message list passed to
    `bp.openai_client.chat.completions.create` (lines 135–139);
  * `emitted` — the lines yielded by `response_stream` (lines 141–150);
  * `appends` — the messages appended to a Conversation Store.
The body of `chat_handler` contains no reference to any store, database
container or log file, so `appends` is always the empty list: nothing in
chat.py persists any message. -/
structure HandlerRun where
  sent : List Message
  emitted : List Line
  appends : List Message
deriving Repr

/-- One full run of `chat_handler` on a request carrying `request_messages`
and `new_session`, against a provider stream that delivered `events` and
then ended with `exc` (see `response_stream_lines`). Every operation of the
handler is accounted for: prompt assembly (lines 108–133), the completion
call (lines 135–139) and the relay loop (lines 141–150). No store append
occurs anywhere in the source of the handler. -/
def chat_handler_run (request_messages : List Message) (new_session : Bool)
    (events : List Event) (exc : Option String) : HandlerRun :=
  { sent := chat_handler_all_messages request_messages new_session
    emitted := response_stream_lines events exc
    appends := [] }

set_option linter.unusedVariables false in
/-- The same run, with the reachability of the Conversation Store during the
request made explicit. `chat_handler` performs no store operation
(chat.py lines 69–152 reference no store), so the run cannot depend on the
`store_reachable` parameter. -/
def chat_handler_run_with_store (store_reachable : Bool)
    (request_messages : List Message) (new_session : Bool)
    (events : List Event) (exc : Option String) : HandlerRun :=
  chat_handler_run request_messages new_session events exc

/-- The configuration read by `configure_openai` (chat.py lines 50–56). -/
structure OpenAIConfig where
  api_version : String
  azure_endpoint : String
  model : String
deriving DecidableEq, Repr

/-- `configure_openai` (chat.py lines 22–56), as a function of the process
environment (`env name = none` when the variable is absent; Python's
`not os.getenv(X)` also holds when the variable is set to the empty string,
hence the `getD "" ... isEmpty` tests). Raising `ValueError` is modelled as
`Except.error` carrying the message; on success the handles
`bp.openai_client` / `bp.openai_model` are summarised by the returned
`OpenAIConfig`. `os.getenv("AZURE_OPENAI_API_VERSION") or
"2024-02-15-preview"` (line 51) falls back to the default when the variable
is absent or empty. Credential-chain construction (lines 26–43) is opaque
glue with no effect on this configuration and is not modelled. -/
def configure_openai (env : String → Option String) :
    Except String OpenAIConfig :=
  if ((env "AZURE_OPENAI_ENDPOINT").getD "").isEmpty then
    Except.error "AZURE_OPENAI_ENDPOINT is required for Azure OpenAI"
  else if ((env "AZURE_OPENAI_CHAT_DEPLOYMENT").getD "").isEmpty then
    Except.error "AZURE_OPENAI_CHAT_DEPLOYMENT is required for Azure OpenAI"
  else
    Except.ok
      { api_version :=
          if ((env "AZURE_OPENAI_API_VERSION").getD "").isEmpty then
            "2024-02-15-preview"
          else (env "AZURE_OPENAI_API_VERSION").getD ""
        azure_endpoint := (env "AZURE_OPENAI_ENDPOINT").getD ""
        model := (env "AZURE_OPENAI_CHAT_DEPLOYMENT").getD "" }

/-- Serving `POST /chat/stream` under a given environment.
`configure_openai` is registered with `@bp.before_app_serving`
(chat.py line 22): Quart runs it before any request is served, and an
exception there prevents the app from serving at all, so a request observes
either the startup `ValueError` — with no response line ever written — or,
once startup succeeded, the full handler run. -/
def serve_chat_stream (env : String → Option String)
    (request_messages : List Message) (new_session : Bool)
    (events : List Event) (exc : Option String) :
    Except String HandlerRun :=
  (configure_openai env).map fun _ =>
    chat_handler_run request_messages new_session events exc

/-- The JSON request body of `POST /chat/stream` as `chat_handler` reads it
(chat.py lines 71–73): an optional `"messages"` key and an optional
`"new_session"` key (`none` models an absent key). -/
structure ChatRequestBody where
  messages : Option (List Message)
  new_session : Option Bool
deriving Repr

/-- `data.get("messages", [])` (chat.py line 72). -/
def chat_handler_request_messages (body : ChatRequestBody) : List Message :=
  body.messages.getD []

/-- `data.get("new_session", False)` (chat.py line 73). -/
def chat_handler_new_session (body : ChatRequestBody) : Bool :=
  body.new_session.getD false

/-- The assembled prompt as a function of the raw request body: `dict.get`
with a default never raises, so `chat_handler` accepts every body and this
function is total. -/
def chat_handler_messages_of_body (body : ChatRequestBody) : List Message :=
  chat_handler_all_messages (chat_handler_request_messages body)
    (chat_handler_new_session body)

/-- The record the non-streaming `/chat` handler of test.py writes to the
Cosmos container (test.py lines 53–57), as its field list: the conversation
id, the raw user input, and the full assistant response, bundled in one
record. -/
def chat_store_record (conversation_id user_input openai_response : String) :
    List (String × String) :=
  [("conversationId", conversation_id),
   ("user_input", user_input),
   ("openai_response", openai_response)]

/-- A Cosmos container operation. test.py only ever calls `upsert_item`;
`delete` is included so that the absence of deletions is expressible. -/
inductive StoreOp where
  | upsert (record : List (String × String)) : StoreOp
  | delete (id : String) : StoreOp
deriving Repr

/-- The complete sequence of container operations the `/chat` handler of
test.py issues for one request (its only store call is the single
`container.upsert_item(...)` on lines 53–57). -/
def chat_store_ops (conversation_id user_input openai_response : String) :
    List StoreOp :=
  [StoreOp.upsert (chat_store_record conversation_id user_input openai_response)]

/-- The shape the spec claims for a non-error response line: a JSON object
`\x7b"role": "assistant", "content": "<increment>"\x7d`. Stated from the
spec's words, for comparison with what `response_stream` actually emits. -/
def role_content_choice (increment : String) : Json :=
  Json.obj [("role", Json.str "assistant"), ("content", Json.str increment)]

/-- A realistic first choice of an Azure OpenAI streaming chunk: its keys
are `delta` / `finish_reason` / `index`, with the increment nested under
`delta`. Used as a concrete input. -/
def delta_choice : Json :=
  Json.obj [("delta", Json.obj [("content", Json.str "¡"),
                                ("role", Json.str "assistant")]),
            ("finish_reason", Json.null),
            ("index", Json.num 0)]

/-- A concrete chunk carrying `delta_choice`. -/
def ev_delta : Event := { choices := [delta_choice] }

/-- A concrete chunk whose `choices` list is empty (Azure emits such chunks,
e.g. the prompt-filter preamble chunk). -/
def ev_empty : Event := { choices := [] }

/-- A concrete caller-supplied message, used as a concrete input. -/
def user_msg : Message := { role := "user", content := "Hola" }

/-! Helper lemmas about `response_stream_lines`. -/

/-- `content_lines` distributes over append. -/
theorem content_lines_append (a b : List Line) :
    content_lines (a ++ b) = content_lines a ++ content_lines b :=
  List.filter_append _ _

/-- The terminal error line (if any) contributes no content line. -/
theorem content_lines_error_tail (exc : Option String) :
    content_lines
      (match exc with
        | some m => [Line.err m]
        | none => ([] : List Line)) = [] := by
  cases exc <;> rfl

/-- Every line the loop body yields is a content line, and the loop keeps
exactly the first choice of each chunk whose `choices` list is non-empty,
in arrival order. -/
theorem filterMap_choices_eq (events : List Event) :
    (events.filterMap fun e => (e.choices.head?).map Line.content)
      = (events.filter fun e => !e.choices.isEmpty).map
          (fun e => Line.content e.choices.headI) := by
  induction events with
  | nil => rfl
  | cons e es ih =>
    cases hc : e.choices with
    | nil =>
      simp only [List.filterMap_cons, List.filter_cons, hc, List.head?_nil,
        Option.map_none', List.isEmpty_nil, Bool.not_true]
      exact ih
    | cons c cs =>
      simp [List.filterMap_cons, List.filter_cons, hc, ih]

/-- The loop body's output consists of content lines only. -/
theorem content_lines_filterMap (events : List Event) :
    content_lines (events.filterMap fun e => (e.choices.head?).map Line.content)
      = events.filterMap fun e => (e.choices.head?).map Line.content := by
  induction events with
  | nil => rfl
  | cons e es ih =>
    cases hc : e.choices with
    | nil =>
      simp only [List.filterMap_cons, hc, List.head?_nil, Option.map_none']
      exact ih
    | cons c cs =>
      simp only [List.filterMap_cons, hc, List.head?_cons, Option.map_some']
      simpa [content_lines, Line.isContent] using ih

/-! The claims. -/

/-- The empty string is empty (Python falsiness of `""`). -/
theorem empty_string_isEmpty : "".isEmpty = true := rfl

/-- C2: `chat_handler` assembles exactly one system message carrying the
configured persona text, then exactly one assistant welcome message with the
configured greeting when and only when `new_session` is true, and then the
caller-supplied messages unchanged, as a contiguous suffix in caller
order. -/
theorem c2_session_assembly (request_messages : List Message) :
    chat_handler_all_messages request_messages true
      = system_message :: welcome_message :: request_messages
  ∧ chat_handler_all_messages request_messages false
      = system_message :: request_messages
  ∧ system_message.role = "system"
  ∧ system_message.content = persona_text
  ∧ welcome_message.role = "assistant"
  ∧ welcome_message.content = welcome_text :=
  ⟨rfl, rfl, rfl, rfl, rfl, rfl⟩

/-- C3: when the provider stream raises after delivering `events`, the lines
written by `response_stream` are some prefix of content lines followed by
exactly one error line, which is the last line; no content line follows
it. -/
theorem c3_error_termination (events : List Event) (m : String) :
    ∃ pre, response_stream_lines events (some m) = pre ++ [Line.err m]
      ∧ ∀ l ∈ pre, ∃ c, l = Line.content c := by
  refine ⟨_, rfl, ?_⟩
  intro l hl
  rcases List.mem_filterMap.mp hl with ⟨e, _, hfe⟩
  rcases Option.map_eq_some'.mp hfe with ⟨c, _, hlc⟩
  exact ⟨c, hlc.symm⟩

/-- C4 counterexample: on a realistic Azure chunk whose first choice is the
usual `delta`/`finish_reason`/`index` object, the single line
`response_stream` writes is the serialisation of that choice object
verbatim — it is not of the claimed shape
`\x7b"role": "assistant", "content": "<increment>"\x7d` for any increment,
and it is not an error line. -/
theorem c4_counterexample :
    response_stream_lines [ev_delta] none = [Line.content delta_choice]
  ∧ (∀ increment : String,
      Line.content delta_choice ≠ Line.content (role_content_choice increment))
  ∧ (∀ m : String, Line.content delta_choice ≠ Line.err m) := by
  refine ⟨rfl, ?_, ?_⟩
  · intro increment h
    simp [delta_choice, role_content_choice] at h
  · intro m h
    exact Line.noConfusion h

/-- C4 amended: every line `response_stream` writes is either the first
element of some delivered chunk's `choices` list, relayed verbatim
(whatever its shape), or the single error object written on failure. -/
theorem c4_lines_relay_first_choice (events : List Event)
    (exc : Option String) :
    ∀ l ∈ response_stream_lines events exc,
      (∃ e ∈ events, ∃ c, e.choices.head? = some c ∧ l = Line.content c)
      ∨ (∃ m, exc = some m ∧ l = Line.err m) := by
  intro l hl
  rcases List.mem_append.mp hl with h | h
  · rcases List.mem_filterMap.mp h with ⟨e, he, hfe⟩
    rcases Option.map_eq_some'.mp hfe with ⟨c, hc, hlc⟩
    exact Or.inl ⟨e, he, c, hc, hlc.symm⟩
  · cases exc with
    | none => simp at h
    | some m =>
      have hl' : l = Line.err m := by simpa using h
      exact Or.inr ⟨m, rfl, hl'⟩

/-- C4 witness: the amended theorem applied to the concrete one-chunk
stream `[ev_delta]`. -/
theorem c4_lines_relay_first_choice_witness :
    (∃ e ∈ [ev_delta], ∃ c, e.choices.head? = some c
        ∧ Line.content delta_choice = Line.content c)
    ∨ (∃ m, (none : Option String) = some m
        ∧ Line.content delta_choice = Line.err m) :=
  c4_lines_relay_first_choice [ev_delta] none (Line.content delta_choice)
    (List.mem_singleton.mpr rfl)

/-- C5 counterexample: with a first chunk whose `choices` list is empty
followed by a content-bearing chunk, the first (and only) emitted non-error
line carries the second chunk's choice, while the first received chunk has
no first choice at all — so the Nth non-error line does not correspond to
the Nth StreamEvent received. -/
theorem c5_counterexample :
    response_stream_lines [ev_empty, ev_delta] none
      = [Line.content delta_choice]
  ∧ ev_empty.choices.head? = none
  ∧ ev_delta.choices.head? = some delta_choice :=
  ⟨rfl, rfl, rfl⟩

/-- C5 amended: the non-error lines are, in order, exactly one line per
received chunk whose `choices` list is non-empty — the Nth non-error line
carries the first choice of the Nth such chunk (emission is immediate and
unbuffered: one line per qualifying event, in arrival order). -/
theorem c5_nonerror_lines_follow_nonempty_events (events : List Event)
    (exc : Option String) :
    content_lines (response_stream_lines events exc)
      = (events.filter fun e => !e.choices.isEmpty).map
          (fun e => Line.content e.choices.headI) := by
  cases exc with
  | none =>
    show content_lines
        ((events.filterMap fun e => (e.choices.head?).map Line.content) ++ [])
      = _
    rw [List.append_nil, content_lines_filterMap, filterMap_choices_eq]
  | some m =>
    show content_lines
        ((events.filterMap fun e => (e.choices.head?).map Line.content)
          ++ [Line.err m])
      = _
    rw [content_lines_append, content_lines_filterMap, filterMap_choices_eq]
    simp [content_lines, Line.isContent]

/-- C10: a chunk with an empty `choices` list contributes no line (the
`if event_dict["choices"]:` guard skips it), while a chunk whose `choices`
list is non-empty contributes exactly one line, carrying its first
choice. -/
theorem c10_empty_choices_skipped (e : Event) (events : List Event)
    (exc : Option String) :
    (e.choices = [] →
      response_stream_lines (e :: events) exc
        = response_stream_lines events exc)
  ∧ (∀ c cs, e.choices = c :: cs →
      response_stream_lines (e :: events) exc
        = Line.content c :: response_stream_lines events exc) := by
  constructor
  · intro h
    simp [response_stream_lines, List.filterMap_cons, h]
  · intro c cs h
    simp [response_stream_lines, List.filterMap_cons, h]

/-- C1 counterexample: on a concrete new-session request with one user
message and a one-chunk provider stream, `chat_handler` streams the chunk's
choice to the client and sends the assembled prompt to the provider, but
appends nothing at all to a Conversation Store — in particular the system
persona message is never appended, refuting the claim that it (and the
welcome and caller messages, and a LogEntry per content chunk) is appended
before and during streaming. -/
theorem c1_counterexample :
    (chat_handler_run [user_msg] true [ev_delta] none).appends = []
  ∧ system_message ∉ (chat_handler_run [user_msg] true [ev_delta] none).appends
  ∧ (chat_handler_run [user_msg] true [ev_delta] none).sent
      = [system_message, welcome_message, user_msg]
  ∧ (chat_handler_run [user_msg] true [ev_delta] none).emitted
      = [Line.content delta_choice] := by
  refine ⟨rfl, ?_, rfl, rfl⟩
  simp [chat_handler_run]

/-- C1 amended: `chat_handler` performs no Conversation Store append
whatsoever — neither the persona, the welcome, the caller-supplied messages
nor any assistant increment is persisted; the handler only sends the
assembled prompt to the provider and relays the stream to the client. -/
theorem c1_relay_never_appends (request_messages : List Message)
    (new_session : Bool) (events : List Event) (exc : Option String) :
    (chat_handler_run request_messages new_session events exc).appends = []
  ∧ (chat_handler_run request_messages new_session events exc).emitted
      = response_stream_lines events exc
  ∧ (chat_handler_run request_messages new_session events exc).sent
      = chat_handler_all_messages request_messages new_session :=
  ⟨rfl, rfl, rfl⟩

/-- C6: if the endpoint or the deployment variable is absent from the
environment, startup configuration fails with the corresponding
`ValueError`, the app never serves, and `POST /chat/stream` can never
produce a handler run — no output line is written — with an error message
that is one of the two fixed configuration messages, distinguishable from
any in-band upstream or storage error. -/
theorem c6_missing_config_never_serves (env : String → Option String)
    (request_messages : List Message) (new_session : Bool)
    (events : List Event) (exc : Option String)
    (h : env "AZURE_OPENAI_ENDPOINT" = none
        ∨ env "AZURE_OPENAI_CHAT_DEPLOYMENT" = none) :
    ∃ msg,
      serve_chat_stream env request_messages new_session events exc
        = Except.error msg
      ∧ (msg = "AZURE_OPENAI_ENDPOINT is required for Azure OpenAI"
         ∨ msg = "AZURE_OPENAI_CHAT_DEPLOYMENT is required for Azure OpenAI")
      ∧ ∀ run : HandlerRun,
          serve_chat_stream env request_messages new_session events exc
            ≠ Except.ok run := by
  have key : ∃ msg, configure_openai env = Except.error msg
      ∧ (msg = "AZURE_OPENAI_ENDPOINT is required for Azure OpenAI"
         ∨ msg = "AZURE_OPENAI_CHAT_DEPLOYMENT is required for Azure OpenAI") := by
    rcases h with h | h
    · refine ⟨"AZURE_OPENAI_ENDPOINT is required for Azure OpenAI",
        ?_, Or.inl rfl⟩
      simp [configure_openai, h, empty_string_isEmpty]
    · by_cases hE : ((env "AZURE_OPENAI_ENDPOINT").getD "").isEmpty
      · refine ⟨"AZURE_OPENAI_ENDPOINT is required for Azure OpenAI",
          ?_, Or.inl rfl⟩
        simp [configure_openai, hE]
      · refine ⟨"AZURE_OPENAI_CHAT_DEPLOYMENT is required for Azure OpenAI",
          ?_, Or.inr rfl⟩
        simp [configure_openai, hE, h, empty_string_isEmpty]
  rcases key with ⟨msg, hmsg, hdisj⟩
  refine ⟨msg, ?_, hdisj, ?_⟩
  · simp [serve_chat_stream, hmsg, Except.map]
  · intro run hrun
    simp [serve_chat_stream, hmsg, Except.map] at hrun

/-- C6 witness: the theorem applied to the empty environment and a concrete
request. -/
theorem c6_missing_config_never_serves_witness :
    ∃ msg,
      serve_chat_stream (fun _ => none) [user_msg] true [ev_delta] none
        = Except.error msg
      ∧ (msg = "AZURE_OPENAI_ENDPOINT is required for Azure OpenAI"
         ∨ msg = "AZURE_OPENAI_CHAT_DEPLOYMENT is required for Azure OpenAI")
      ∧ ∀ run : HandlerRun,
          serve_chat_stream (fun _ => none) [user_msg] true [ev_delta] none
            ≠ Except.ok run :=
  c6_missing_config_never_serves (fun _ => none) [user_msg] true [ev_delta]
    none (Or.inl rfl)

/-- C7: two runs of the same request over the same provider stream, one with
the Conversation Store reachable and one with it unreachable, emit the
identical line sequence (in particular identical assistant-content lines),
and both runs complete — the handler contains no store operation, so store
reachability cannot influence the response. -/
theorem c7_storage_independence (store_up store_down : Bool)
    (request_messages : List Message) (new_session : Bool)
    (events : List Event) (exc : Option String) :
    (chat_handler_run_with_store store_up request_messages new_session
        events exc).emitted
      = (chat_handler_run_with_store store_down request_messages new_session
          events exc).emitted
  ∧ content_lines
      (chat_handler_run_with_store store_up request_messages new_session
        events exc).emitted
      = content_lines
        (chat_handler_run_with_store store_down request_messages new_session
          events exc).emitted :=
  ⟨rfl, rfl⟩

/-- C8 counterexample: the record test.py writes for a concrete request
bundles the user message content and the whole assistant response in a
single record and carries no `role` or `content` field at all — it does not
correspond to exactly one Message with the Message's role and content
copied into it. -/
theorem c8_counterexample :
    ("user_input", "Hola") ∈ chat_store_record "default" "Hola" "resp"
  ∧ ("openai_response", "resp") ∈ chat_store_record "default" "Hola" "resp"
  ∧ (∀ v, ("role", v) ∉ chat_store_record "default" "Hola" "resp")
  ∧ (∀ v, ("content", v) ∉ chat_store_record "default" "Hola" "resp") := by
  refine ⟨by simp [chat_store_record], by simp [chat_store_record], ?_, ?_⟩
  · intro v
    simp [chat_store_record]
  · intro v
    simp [chat_store_record]

/-- C8 amended: per request the `/chat` handler of test.py issues exactly
one store operation — an upsert (insert-or-replace, so replacement of an
existing record is not excluded) and never a delete — whose record has
exactly the fields `conversationId`, `user_input`, `openai_response`,
bundling the user message and the full assistant response of one exchange
in a single record. -/
theorem c8_single_upsert_bundles_exchange
    (conversation_id user_input openai_response : String) :
    chat_store_ops conversation_id user_input openai_response
      = [StoreOp.upsert
          (chat_store_record conversation_id user_input openai_response)]
  ∧ (∀ i, StoreOp.delete i
        ∉ chat_store_ops conversation_id user_input openai_response)
  ∧ (chat_store_record conversation_id user_input openai_response).map
        Prod.fst
      = ["conversationId", "user_input", "openai_response"]
  ∧ ("user_input", user_input)
      ∈ chat_store_record conversation_id user_input openai_response
  ∧ ("openai_response", openai_response)
      ∈ chat_store_record conversation_id user_input openai_response := by
  refine ⟨rfl, ?_, rfl, by simp [chat_store_record],
    by simp [chat_store_record]⟩
  intro i
  simp [chat_store_ops]

/-- C9: a request body without a `"messages"` key is handled as the empty
message list and one without a `"new_session"` key is handled as
`new_session = false` (so no welcome message is inserted); `dict.get` with
a default never raises, so the handler — total here by construction —
accepts every such body. -/
theorem c9_missing_keys_defaulted (body : ChatRequestBody) :
    (body.messages = none → chat_handler_request_messages body = [])
  ∧ (body.new_session = none → chat_handler_new_session body = false)
  ∧ (body.new_session = none →
      chat_handler_messages_of_body body
        = system_message :: chat_handler_request_messages body)
  ∧ (body.messages = none → body.new_session = none →
      chat_handler_messages_of_body body = [system_message]) := by
  refine ⟨?_, ?_, ?_, ?_⟩
  · intro h
    simp [chat_handler_request_messages, h]
  · intro h
    simp [chat_handler_new_session, h]
  · intro h
    simp [chat_handler_messages_of_body, chat_handler_new_session, h,
      chat_handler_all_messages]
  · intro h1 h2
    simp [chat_handler_messages_of_body, chat_handler_new_session,
      chat_handler_request_messages, h1, h2, chat_handler_all_messages]

end ChatApp
